import Mathlib

/-!
# Verification of the online personalization engine (learning model)

Shallow embedding of `agents/learning/model.py` and the relevant part of
`agents/navigation/learning_agent.py`.  Python floats are modelled by `ℚ`
(all arithmetic in the engine is field arithmetic; exactness stands in for
IEEE rounding).  Fallible code paths (Python exceptions such as
`ZeroDivisionError` or `IndexError`) are modelled by `Option`, with `none`
meaning that the corresponding Python call raises.

The trigonometric rotation used by `transform_to_frame` lives in
`agents/tools/misc.py`, which is not part of the sources under review; it is
modelled from the spec, with the cosine and sine of the (degree-valued) yaw
abstracted as function parameters `cosd sind : ℚ → ℚ` that are universally
quantified in every theorem (none of the verified properties depends on the
actual trigonometric values).
-/

/-- A 3-component velocity vector (`carla.Vector3D` as used by the engine). -/
structure Vec3 where
  x : ℚ
  y : ℚ
  z : ℚ
deriving DecidableEq, Repr

/-- One buffered trajectory sample `(x, y, z, yaw, t_ms)` as unpacked by
`Model.get_lane_changing_points`. -/
structure Pose where
  x : ℚ
  y : ℚ
  z : ℚ
  yaw : ℚ
  t : ℚ
deriving DecidableEq, Repr

/-- The persisted quintic shape parameters (`model["poly_param"]`). -/
structure PolyParam where
  lon_dis : ℚ
  lat_dis : ℚ
  dt : ℚ
  lon_param : List ℚ
  lat_param : List ℚ
deriving DecidableEq, Repr

/-- The persisted sinusoidal shape parameters (`model["sin_param"]`). -/
structure SinParam where
  lon_dis : ℚ
  lat_dis : ℚ
  dt : ℚ
deriving DecidableEq, Repr

/-- An obstacle-gap ("radar") snapshot: a sequence of per-lane slots.  A slot
is `none` when the code's truthiness test `if radars[i]` fails, and
`some d` when the slot is present with distance component `d`
(the code reads the distance as `radars[i][1][0]`). -/
abbrev RadarSnap : Type := List (Option ℚ)

/-- The in-memory model state of `Model`: the persisted parameter dictionary
(`self._model`) together with the five per-session sample buffers. -/
structure Model where
  safe_distance : ℚ
  target_speed : ℚ
  poly_param : PolyParam
  sin_param : SinParam
  distance_list : List ℚ
  velocity_list : List Vec3
  radar_list : List RadarSnap
  poly_points : List Pose
  sin_points : List Pose
deriving DecidableEq

/-- The default model written by `Model.load_model` when no persisted state
exists, with empty session buffers. -/
def default_model : Model :=
  { safe_distance := 10
    target_speed := 28
    poly_param :=
      { lon_dis := 30, lat_dis := -3.5, dt := 4
        lon_param := [0, 7, 0, 0.3125, -0.1172, 0.0117]
        lat_param := [0, 0, 0, -0.5469, 0.2051, -0.0205] }
    sin_param := { lon_dis := 30, lat_dis := -3.5, dt := 4 }
    distance_list := []
    velocity_list := []
    radar_list := []
    poly_points := []
    sin_points := [] }

/-- `Model.change_param(current, new, max_change_rate)`: the rate-limited
blender.  The Python default `max_change_rate=0.1` is passed explicitly
(`1/10`) at every call site below, as in the source. -/
def change_param (current new max_change_rate : ℚ) : ℚ :=
  if |new - current| < max_change_rate * |current| then new
  else if new > current then current + max_change_rate * |current|
  else current - max_change_rate * |current|

/-- A positive current value stays positive under blending with rate `1/10`
(used for the `dt > 0` invariant). -/
lemma change_param_pos (current new : ℚ) (h : 0 < current) :
    0 < change_param current new (1/10) := by
  unfold change_param
  split_ifs with h1 h2
  · rw [abs_of_pos h] at h1
    have := abs_lt.mp h1
    linarith [this.1]
  · positivity
  · rw [abs_of_pos h]
    linarith

section ChangeParamClaims

/-- C4 (amended): for every `current`, `proposed` and nonnegative
`max_rate`, the blend result of `change_param` moves away from `current` by
at most `max_rate * |current|`. -/
theorem change_param_bounded_step (current proposed max_rate : ℚ)
    (h : 0 ≤ max_rate) :
    |change_param current proposed max_rate - current| ≤ max_rate * |current| := by
  unfold change_param
  split_ifs with h1 h2
  · exact le_of_lt h1
  · rw [add_sub_cancel_left, abs_of_nonneg (by positivity)]
  · rw [sub_sub_cancel_left, abs_neg, abs_of_nonneg (by positivity)]

/-- Witness for C4's amended theorem at `current = 1`, `proposed = 2`,
`max_rate = 1/10`. -/
theorem change_param_bounded_step_witness :
    (0 : ℚ) ≤ 1/10 ∧ |change_param 1 2 (1/10) - 1| ≤ (1/10) * |(1 : ℚ)| :=
  ⟨by norm_num, change_param_bounded_step 1 2 (1/10) (by norm_num)⟩

/-- Counterexample to C4 as stated: at `current = 1`, `proposed = 2`,
`max_rate = -1` the bound `|result - current| ≤ max_rate * |current|`
fails (the result is `0`, a full step of size `1`, while the bound is `-1`). -/
theorem change_param_bounded_step_counterexample :
    ¬ |change_param 1 2 (-1) - 1| ≤ (-1) * |(1 : ℚ)| := by
  have h : change_param 1 2 (-1) = 0 := by norm_num [change_param]
  rw [h]
  norm_num

/-- C5 (amended): whenever `proposed ≠ current`, `current ≠ 0`, and
`max_rate > 0`, the blend result of `change_param` moves strictly in the
direction of `proposed`:
`sign (result - current) = sign (proposed - current)`. -/
theorem change_param_sign (current proposed max_rate : ℚ)
    (hne : proposed ≠ current) (hc : current ≠ 0) (hr : 0 < max_rate) :
    SignType.sign (change_param current proposed max_rate - current) =
      SignType.sign (proposed - current) := by
  have habs : 0 < |current| := abs_pos.mpr hc
  unfold change_param
  split_ifs with h1 h2
  · rfl
  · rw [add_sub_cancel_left]
    rw [sign_pos (by positivity), sign_pos (by linarith [sub_pos.mpr h2])]
  · have hlt : proposed < current := lt_of_le_of_ne (not_lt.mp h2) hne
    rw [sub_sub_cancel_left]
    rw [sign_neg (by simp only [neg_neg_iff_pos]; positivity),
      sign_neg (by linarith [sub_neg.mpr hlt])]

/-- Witness for C5's amended theorem at `current = 1`, `proposed = 2`,
`max_rate = 1/10`. -/
theorem change_param_sign_witness :
    (2 : ℚ) ≠ 1 ∧ (1 : ℚ) ≠ 0 ∧ (0 : ℚ) < 1/10 ∧
      SignType.sign (change_param 1 2 (1/10) - 1) = SignType.sign ((2 : ℚ) - 1) :=
  ⟨by norm_num, by norm_num, by norm_num,
    change_param_sign 1 2 (1/10) (by norm_num) (by norm_num) (by norm_num)⟩

/-- Counterexample to C5 as stated: at `current = 0`, `proposed = 5`,
`max_rate = 1/10` (the default rate), the result is `0` again, so the step
has sign `0` while `proposed - current` has sign `1`. -/
theorem change_param_sign_counterexample :
    (5 : ℚ) ≠ 0 ∧
      SignType.sign (change_param 0 5 (1/10) - 0) ≠ SignType.sign ((5 : ℚ) - 0) := by
  have h : change_param 0 5 (1/10) = 0 := by norm_num [change_param]
  have h5 : SignType.sign ((5 : ℚ) - 0) = 1 := by
    rw [sub_zero]
    exact sign_pos (by norm_num)
  refine ⟨by norm_num, ?_⟩
  rw [h, h5, sub_zero, sign_zero]
  decide

end ChangeParamClaims

/-! ## The quintic trajectory fitter's linear solve (`Model.update_poly_param`) -/

open scoped Matrix

/-- The 6 x 6 boundary-condition matrix `M` built by `update_poly_param`:
rows are `[1, t, t^2, t^3, t^4, t^5]` and its first two derivatives,
evaluated at `t = 0` and `t = dt`. -/
def polyM (dt : ℚ) : Matrix (Fin 6) (Fin 6) ℚ :=
  Matrix.of
    ![![1, 0, 0, 0, 0, 0],
      ![0, 1, 0, 0, 0, 0],
      ![0, 0, 2, 0, 0, 0],
      ![1, dt, dt ^ 2, dt ^ 3, dt ^ 4, dt ^ 5],
      ![0, 1, 2 * dt, 3 * dt ^ 2, 4 * dt ^ 3, 5 * dt ^ 4],
      ![0, 0, 2, 6 * dt, 12 * dt ^ 2, 20 * dt ^ 3]]

/-- The code's `np.matmul(np.linalg.inv(M), state)`: the textbook matrix
inverse `det(M)⁻¹ • adjugate(M)` applied to the boundary-state vector
(kept computable; `solve_poly_eq_inv` below identifies it with `(polyM dt)⁻¹`). -/
def solve_poly (dt : ℚ) (state : Fin 6 → ℚ) : Fin 6 → ℚ :=
  (((polyM dt).det)⁻¹ • (polyM dt).adjugate) *ᵥ state

/-- The longitudinal boundary-state vector `state_lon` of `update_poly_param`. -/
def state_lon (lon_dis desired_lon_speed : ℚ) : Fin 6 → ℚ :=
  ![0, desired_lon_speed, 0, lon_dis, desired_lon_speed, 0]

/-- The lateral boundary-state vector `state_lat` of `update_poly_param`. -/
def state_lat (lat_dis : ℚ) : Fin 6 → ℚ :=
  ![0, 0, 0, lat_dis, 0, 0]

/-- Value of the degree-5 polynomial with coefficient vector `a`
(lowest degree first) at `t`. -/
def pval (a : Fin 6 → ℚ) (t : ℚ) : ℚ :=
  a 0 + a 1 * t + a 2 * t ^ 2 + a 3 * t ^ 3 + a 4 * t ^ 4 + a 5 * t ^ 5

/-- Value of the first derivative of that polynomial at `t`. -/
def pval1 (a : Fin 6 → ℚ) (t : ℚ) : ℚ :=
  a 1 + 2 * a 2 * t + 3 * a 3 * t ^ 2 + 4 * a 4 * t ^ 3 + 5 * a 5 * t ^ 4

/-- Value of the second derivative of that polynomial at `t`. -/
def pval2 (a : Fin 6 → ℚ) (t : ℚ) : ℚ :=
  2 * a 2 + 6 * a 3 * t + 12 * a 4 * t ^ 2 + 20 * a 5 * t ^ 3

set_option maxHeartbeats 2000000 in
set_option maxRecDepth 4000 in
lemma polyM_det (dt : ℚ) : (polyM dt).det = 4 * dt ^ 9 := by
  simp [polyM, Matrix.det_succ_row_zero, Fin.sum_univ_succ]
  ring

lemma polyM_det_ne_zero (dt : ℚ) (h : dt ≠ 0) : (polyM dt).det ≠ 0 := by
  rw [polyM_det]
  positivity

/-- For `dt ≠ 0` the computed coefficients solve the linear system exactly. -/
lemma polyM_mulVec_solve_poly (dt : ℚ) (h : dt ≠ 0) (s : Fin 6 → ℚ) :
    polyM dt *ᵥ solve_poly dt s = s := by
  unfold solve_poly
  rw [Matrix.mulVec_mulVec, Matrix.mul_smul, Matrix.mul_adjugate, smul_smul,
    inv_mul_cancel₀ (polyM_det_ne_zero dt h), one_smul, Matrix.one_mulVec]

/-- `solve_poly` agrees with Mathlib's matrix inverse. -/
lemma solve_poly_eq_inv (dt : ℚ) (s : Fin 6 → ℚ) :
    solve_poly dt s = (polyM dt)⁻¹ *ᵥ s := by
  unfold solve_poly
  rw [Matrix.inv_def, Ring.inverse_eq_inv']

lemma cons_val_five {α : Type} (a b c d e f : α) : ![a, b, c, d, e, f] 5 = f := rfl

lemma mulVec_six (M : Matrix (Fin 6) (Fin 6) ℚ) (v : Fin 6 → ℚ) (i : Fin 6) :
    (M *ᵥ v) i =
      M i 0 * v 0 + M i 1 * v 1 + M i 2 * v 2 + M i 3 * v 3 + M i 4 * v 4 + M i 5 * v 5 := by
  simp [Matrix.mulVec, Matrix.dotProduct, Fin.sum_univ_six]

/-- Expansion of `polyM dt *ᵥ a`: its six components are the polynomial, its
first and its second derivative evaluated at `0` and at `dt`. -/
lemma polyM_mulVec_eval (dt : ℚ) (a : Fin 6 → ℚ) :
    polyM dt *ᵥ a = ![pval a 0, pval1 a 0, pval2 a 0, pval a dt, pval1 a dt, pval2 a dt] := by
  funext i
  fin_cases i <;>
    rw [mulVec_six] <;>
    simp [polyM, cons_val_five, pval, pval1, pval2, -Matrix.cons_val'] <;> ring

/-- The six boundary values of the fitted polynomial are exactly the entries
of the boundary-state vector. -/
lemma solve_poly_boundary (dt : ℚ) (h : dt ≠ 0) (s : Fin 6 → ℚ) :
    pval (solve_poly dt s) 0 = s 0 ∧ pval1 (solve_poly dt s) 0 = s 1 ∧
    pval2 (solve_poly dt s) 0 = s 2 ∧ pval (solve_poly dt s) dt = s 3 ∧
    pval1 (solve_poly dt s) dt = s 4 ∧ pval2 (solve_poly dt s) dt = s 5 := by
  have hM := polyM_mulVec_solve_poly dt h s
  rw [polyM_mulVec_eval] at hM
  exact ⟨congrFun hM 0, congrFun hM 1, congrFun hM 2,
    congrFun hM 3, congrFun hM 4, congrFun hM 5⟩

section QuinticClaims

/-- C1 (amended): for every `dt > 0`, target displacements and desired
longitudinal speed produced by the blending step, the coefficient vectors
computed by `update_poly_param` define, for each axis, a degree-5 polynomial
satisfying the six boundary conditions the code imposes: position `0`,
velocity equal to the desired terminal speed of that axis (the desired
longitudinal speed for the longitudinal axis, `0` for the lateral axis) and
acceleration `0` at `t = 0`; and position equal to the target displacement,
velocity again the desired terminal speed of the axis, acceleration `0` at
`t = dt`.  (The claim's `p'(0) = 0` only holds for the lateral axis: the
code's `state_lon` starts the longitudinal axis at the desired speed.) -/
theorem poly_boundary_conditions (dt lon_dis lat_dis desired_lon_speed : ℚ)
    (h : 0 < dt) :
    pval (solve_poly dt (state_lon lon_dis desired_lon_speed)) 0 = 0 ∧
    pval1 (solve_poly dt (state_lon lon_dis desired_lon_speed)) 0 = desired_lon_speed ∧
    pval2 (solve_poly dt (state_lon lon_dis desired_lon_speed)) 0 = 0 ∧
    pval (solve_poly dt (state_lon lon_dis desired_lon_speed)) dt = lon_dis ∧
    pval1 (solve_poly dt (state_lon lon_dis desired_lon_speed)) dt = desired_lon_speed ∧
    pval2 (solve_poly dt (state_lon lon_dis desired_lon_speed)) dt = 0 ∧
    pval (solve_poly dt (state_lat lat_dis)) 0 = 0 ∧
    pval1 (solve_poly dt (state_lat lat_dis)) 0 = 0 ∧
    pval2 (solve_poly dt (state_lat lat_dis)) 0 = 0 ∧
    pval (solve_poly dt (state_lat lat_dis)) dt = lat_dis ∧
    pval1 (solve_poly dt (state_lat lat_dis)) dt = 0 ∧
    pval2 (solve_poly dt (state_lat lat_dis)) dt = 0 := by
  have hne : dt ≠ 0 := ne_of_gt h
  have hlon := solve_poly_boundary dt hne (state_lon lon_dis desired_lon_speed)
  have hlat := solve_poly_boundary dt hne (state_lat lat_dis)
  simp only [state_lon, state_lat, Matrix.cons_val_zero, Matrix.cons_val_one,
    Matrix.head_cons, Matrix.cons_val_two, Matrix.tail_cons, Matrix.cons_val_three,
    Matrix.cons_val_four, cons_val_five] at hlon hlat
  exact ⟨hlon.1, hlon.2.1, hlon.2.2.1, hlon.2.2.2.1, hlon.2.2.2.2.1, hlon.2.2.2.2.2,
    hlat.1, hlat.2.1, hlat.2.2.1, hlat.2.2.2.1, hlat.2.2.2.2.1, hlat.2.2.2.2.2⟩

/-- Witness for C1's amended theorem at `dt = 1`, displacements `1` and `-1`,
desired longitudinal speed `1`. -/
theorem poly_boundary_conditions_witness :
    (0 : ℚ) < 1 ∧ pval (solve_poly 1 (state_lat (-1))) 1 = -1 :=
  ⟨by norm_num, (poly_boundary_conditions 1 1 (-1) 1 (by norm_num)).2.2.2.2.2.2.2.2.2.1⟩

/-- Counterexample to C1 as stated: the claim requires `p'(0) = 0` for both
axes, but at `dt = 1`, `lon_dis = 1` and desired longitudinal speed `1`
(consistent with `desired_lon_speed = lon_dis / dt`), the fitted
longitudinal polynomial has initial velocity `1`, not `0`. -/
theorem poly_initial_velocity_counterexample :
    ¬ pval1 (solve_poly 1 (state_lon 1 1)) 0 = 0 := by
  have hb := solve_poly_boundary 1 (by norm_num) (state_lon 1 1)
  have h1 : pval1 (solve_poly 1 (state_lon 1 1)) 0 = 1 := by
    have := hb.2.1
    simpa [state_lon] using this
  rw [h1]
  norm_num

end QuinticClaims

/-! ## The lane-change segment extractor (`Model.get_lane_changing_points`) -/

/-- Modelled from the spec: `transform_to_frame` (from `agents/tools/misc`,
not part of the sources under review) transforms every sample's position
into the reference pose's local frame — rotate by the negative reference
yaw, translate by the negative reference position.  The cosine and sine of
the yaw angle are abstracted as the parameters `cosd` and `sind`. -/
def transform_to_frame (cosd sind : ℚ → ℚ) (ref : Pose) (pts : List Pose) :
    List (ℚ × ℚ × ℚ) :=
  pts.map fun p =>
    (cosd ref.yaw * (p.x - ref.x) + sind ref.yaw * (p.y - ref.y),
     -(sind ref.yaw) * (p.x - ref.x) + cosd ref.yaw * (p.y - ref.y),
     p.z - ref.z)

/-- Numpy boolean-mask selection `arr[mask]`: keep the elements whose mask
entry is `true`. -/
def maskFilter {α : Type} : List Bool → List α → List α
  | true :: bs, x :: xs => x :: maskFilter bs xs
  | false :: bs, _ :: xs => maskFilter bs xs
  | _, _ => []

/-- The source's `for i, val in enumerate(index): if val: start_index = i; break`:
index of the first `true` entry of the mask. -/
def firstTrue : List Bool → Option ℕ
  | [] => none
  | true :: _ => some 0
  | false :: bs => (firstTrue bs).map (· + 1)

/-- `Model.get_lane_changing_points(points)`: transform the samples into the
first sample's local frame, mark every sample whose lateral delta from the
previous sample is below `-0.02`, keep the marked samples, re-zero the kept
`x`, `y` and `t_ms/1000` sequences against the first kept sample, and
report the mask index of the first marked entry (`-1` if none). -/
def get_lane_changing_points (cosd sind : ℚ → ℚ) :
    List Pose → List ℚ × List ℚ × List ℚ × Int
  | [] => ([], [], [], -1)
  | p0 :: rest =>
    let pts := p0 :: rest
    let tf := transform_to_frame cosd sind p0 pts
    let x_v := tf.map fun q => q.1
    let y_v := tf.map fun q => q.2.1
    let t_v := pts.map fun p => p.t / 1000
    let e_y : List Bool := ((y_v.drop 1).zip y_v).map fun q => decide (q.1 - q.2 < -(1/50))
    let xk := maskFilter e_y (x_v.drop 1)
    let yk := maskFilter e_y (y_v.drop 1)
    let tk := maskFilter e_y (t_v.drop 1)
    if 0 < xk.length then
      (xk.map (· - xk.headI), yk.map (· - yk.headI), tk.map (· - tk.headI),
        match firstTrue e_y with
        | some i => (i : Int)
        | none => -1)
    else ([], [], [], -1)

/-- Modelled from the spec: the original index, within the input pose
sequence, of the first kept sample — the first sample whose local-frame
lateral delta from the previous sample is below `-0.02` (`none` when no
sample qualifies).  Mask entry `i` compares samples `i + 1` and `i`, so the
first kept sample's original index is one more than the first `true` mask
position. -/
def firstKeptSampleIndex (cosd sind : ℚ → ℚ) : List Pose → Option ℕ
  | [] => none
  | p0 :: rest =>
    let y_v := (transform_to_frame cosd sind p0 (p0 :: rest)).map fun q => q.2.1
    let e_y : List Bool := ((y_v.drop 1).zip y_v).map fun q => decide (q.1 - q.2 < -(1/50))
    (firstTrue e_y).map (· + 1)

lemma firstTrue_eq_none_iff (bs : List Bool) :
    firstTrue bs = none ↔ ∀ b ∈ bs, b = false := by
  induction bs with
  | nil => simp [firstTrue]
  | cons b bs ih =>
    cases b <;> simp [firstTrue, ih]

lemma maskFilter_eq_nil_of_all_false {α : Type} (bs : List Bool) (l : List α)
    (h : ∀ b ∈ bs, b = false) : maskFilter bs l = [] := by
  induction bs generalizing l with
  | nil => cases l <;> rfl
  | cons b bs ih =>
    have hb : b = false := h b (by simp)
    subst hb
    cases l with
    | nil => rfl
    | cons x xs => exact ih xs fun c hc => h c (by simp [hc])

lemma maskFilter_length_pos {α : Type} (bs : List Bool) (l : List α) (i : ℕ)
    (hlen : bs.length = l.length) (h : firstTrue bs = some i) :
    0 < (maskFilter bs l).length := by
  induction bs generalizing l i with
  | nil => simp [firstTrue] at h
  | cons b bs ih =>
    cases l with
    | nil => simp at hlen
    | cons x xs =>
      cases b with
      | true => simp [maskFilter]
      | false =>
        simp only [firstTrue] at h
        cases hft : firstTrue bs with
        | none => rw [hft] at h; simp at h
        | some j => exact ih xs j (by simpa using hlen) hft

lemma start_index_aux {α : Type} (bs : List Bool) (xs : List α)
    (hlen : bs.length = xs.length) :
    (firstTrue bs = none →
      (if 0 < (maskFilter bs xs).length then
        (match firstTrue bs with | some i => (i : Int) | none => -1) else -1) = -1) ∧
    ∀ i, firstTrue bs = some i →
      (if 0 < (maskFilter bs xs).length then
        (match firstTrue bs with | some i => (i : Int) | none => -1) else -1) = (i : Int) := by
  constructor
  · intro hft
    rw [if_neg]
    rw [maskFilter_eq_nil_of_all_false bs xs ((firstTrue_eq_none_iff bs).mp hft)]
    simp
  · intro i hft
    rw [if_pos (maskFilter_length_pos bs xs i hlen hft), hft]

section StartIndexClaim

/-- C2 (amended): for every input pose sequence of length at least 2, the
start index returned by `get_lane_changing_points` equals the original index
(within the input sequence) of the first kept sample **minus one** — the
index of the sample immediately preceding the first kept one — when at
least one sample qualifies, and equals `-1` when no sample qualifies. -/
theorem lane_change_start_index (cosd sind : ℚ → ℚ) (pts : List Pose)
    (h2 : 2 ≤ pts.length) :
    (firstKeptSampleIndex cosd sind pts = none →
      (get_lane_changing_points cosd sind pts).2.2.2 = -1) ∧
    ∀ j, firstKeptSampleIndex cosd sind pts = some j →
      (get_lane_changing_points cosd sind pts).2.2.2 = (j : Int) - 1 := by
  cases pts with
  | nil => simp at h2
  | cons p0 rest =>
    simp only [get_lane_changing_points, firstKeptSampleIndex]
    set y_v : List ℚ :=
      (transform_to_frame cosd sind p0 (p0 :: rest)).map (fun q => q.2.1) with hy
    set x_v : List ℚ :=
      (transform_to_frame cosd sind p0 (p0 :: rest)).map (fun q => q.1) with hx
    set e_y : List Bool :=
      ((y_v.drop 1).zip y_v).map (fun q => decide (q.1 - q.2 < -(1/50))) with he
    have hlen : e_y.length = (x_v.drop 1).length := by
      simp [he, hy, hx, transform_to_frame]
    have haux := start_index_aux e_y (x_v.drop 1) hlen
    constructor
    · intro hnone
      cases hft : firstTrue e_y with
      | none =>
        have h1 := haux.1 hft
        split at h1 <;> simp_all
      | some i => rw [hft] at hnone; simp at hnone
    · intro j hj
      cases hft : firstTrue e_y with
      | none => rw [hft] at hj; simp at hj
      | some i =>
        rw [hft] at hj
        simp at hj
        have h1 := haux.2 i hft
        split at h1 <;> simp_all
        omega
end StartIndexClaim

section StartIndexConcrete

/-- Witness for C2's amended theorem on a concrete two-sample sequence
(reference yaw `0`, so `cosd`/`sind` are `1`/`0` there). -/
theorem lane_change_start_index_witness :
    2 ≤ ([⟨0, 0, 0, 0, 0⟩, ⟨0, -1, 0, 0, 1000⟩] : List Pose).length ∧
    ((firstKeptSampleIndex (fun _ => 1) (fun _ => 0)
        [⟨0, 0, 0, 0, 0⟩, ⟨0, -1, 0, 0, 1000⟩] = none →
      (get_lane_changing_points (fun _ => 1) (fun _ => 0)
        [⟨0, 0, 0, 0, 0⟩, ⟨0, -1, 0, 0, 1000⟩]).2.2.2 = -1) ∧
    ∀ j, firstKeptSampleIndex (fun _ => 1) (fun _ => 0)
        [⟨0, 0, 0, 0, 0⟩, ⟨0, -1, 0, 0, 1000⟩] = some j →
      (get_lane_changing_points (fun _ => 1) (fun _ => 0)
        [⟨0, 0, 0, 0, 0⟩, ⟨0, -1, 0, 0, 1000⟩]).2.2.2 = (j : Int) - 1) :=
  ⟨by norm_num, lane_change_start_index (fun _ => 1) (fun _ => 0)
    [⟨0, 0, 0, 0, 0⟩, ⟨0, -1, 0, 0, 1000⟩] (by norm_num)⟩

/-- Counterexample to C2 as stated: on the two-sample sequence whose second
sample steps left by `1`, the first kept sample has original index `1`, but
the returned start index is `0` (the mask index), not `1`. -/
theorem lane_change_start_index_counterexample :
    (get_lane_changing_points (fun _ => 1) (fun _ => 0)
        [⟨0, 0, 0, 0, 0⟩, ⟨0, -1, 0, 0, 1000⟩]).2.2.2 = 0 ∧
    firstKeptSampleIndex (fun _ => 1) (fun _ => 0)
        [⟨0, 0, 0, 0, 0⟩, ⟨0, -1, 0, 0, 1000⟩] = some 1 ∧
    (0 : Int) ≠ 1 := by
  norm_num [get_lane_changing_points, firstKeptSampleIndex, transform_to_frame,
    maskFilter, firstTrue]

end StartIndexConcrete

/-! ## Sample buffers and `Model.collect` -/

/-- The per-tick observation record `dict_param` passed to `Model.collect`,
modelled as one optional field per key occurring anywhere in the program
(`Model.collect` reads `velocity`, `distance`, `points`, `radars`;
`LearningAgent.collect` produces `poly_points`, `speed`, `distance`). -/
structure DictParam where
  velocity : Option Vec3
  distance : Option ℚ
  points : Option Pose
  radars : Option RadarSnap
  poly_points : Option (List ℚ)
  speed : Option ℚ
deriving DecidableEq

/-- The Python truthiness test `if dict_param:`. -/
def DictParam.nonEmpty (d : DictParam) : Bool :=
  d.velocity.isSome || d.distance.isSome || d.points.isSome || d.radars.isSome ||
    d.poly_points.isSome || d.speed.isSome

/-- The all-absent record. -/
def DictParam.empty : DictParam :=
  { velocity := none, distance := none, points := none, radars := none,
    poly_points := none, speed := none }

/-- `Model.collect(dict_param)`: append each of the four recognised keys'
values to its buffer (`points` feeds both the quintic and the sinusoidal
point buffers); all other keys are ignored. -/
def collect (m : Model) (d : DictParam) : Model :=
  if d.nonEmpty then
    let m1 := match d.velocity with
      | some v => { m with velocity_list := m.velocity_list ++ [v] }
      | none => m
    let m2 := match d.distance with
      | some x => { m1 with distance_list := m1.distance_list ++ [x] }
      | none => m1
    let m3 := match d.points with
      | some p => { m2 with poly_points := m2.poly_points ++ [p],
                            sin_points := m2.sin_points ++ [p] }
      | none => m2
    match d.radars with
      | some r => { m3 with radar_list := m3.radar_list ++ [r] }
      | none => m3
  else m

namespace LearningAgent

/-- `LearningAgent.collect()`: build the per-tick record.  It always holds a
4-element `poly_points` entry; `speed` is added while driving straight
(`math.sqrt` is abstracted as the parameter `sqrt`; the guard divides by
`abs(v.y)`, so `v.y = 0` with `|v.x| > 4` raises, modelled as `none`);
`distance` is added while close to an obstacle. -/
def collect (sqrt : ℚ → ℚ) (loc_x loc_y yaw ticks : ℚ) (v : Vec3)
    (close_to_obstacle : Bool) (distance_to_obstacle : ℚ) : Option DictParam :=
  let d := { DictParam.empty with poly_points := some [loc_x, loc_y, yaw, ticks] }
  let withSpeed : Option DictParam :=
    if |v.x| > 4 then
      if v.y = 0 then none
      else if |v.x| / |v.y| > 30 then
        some { d with speed := some ((18/5) * sqrt (v.x ^ 2 + v.y ^ 2 + v.z ^ 2)) }
      else some d
    else some d
  withSpeed.map fun d0 =>
    if close_to_obstacle then { d0 with distance := some distance_to_obstacle } else d0

end LearningAgent

/-! ## Estimators and fitters -/

/-- Insert into an ascending-sorted list (stable). -/
def insertSorted (x : ℚ) : List ℚ → List ℚ
  | [] => [x]
  | y :: ys => if x ≤ y then x :: y :: ys else y :: insertSorted x ys

/-- Python's in-place ascending `list.sort()` on rational values. -/
def sortAsc (l : List ℚ) : List ℚ := l.foldr insertSorted []

/-- Insert into a descending-sorted list (stable). -/
def insertSortedDesc (x : ℚ) : List ℚ → List ℚ
  | [] => [x]
  | y :: ys => if y ≤ x then x :: y :: ys else y :: insertSortedDesc x ys

/-- Python's `list.sort(reverse=True)` on rational values. -/
def sortDesc (l : List ℚ) : List ℚ := l.foldr insertSortedDesc []

/-- `Model.update_safe_distance()`: if `int(0.2 * len(distance_list)) > 5`,
sort ascending, average the lowest 20%, blend into `safe_distance` and
clear the buffer; otherwise do nothing.  Python's `int()` on the
nonnegative float `0.2 * len` is the floor. -/
def update_safe_distance (m : Model) : Model :=
  if (⌊(1/5 : ℚ) * (m.distance_list.length : ℚ)⌋).toNat ≤ 5 then m
  else
    let length := (⌊(1/5 : ℚ) * (m.distance_list.length : ℚ)⌋).toNat
    let sorted := sortAsc m.distance_list
    let new_dist := (sorted.take length).sum / (length : ℚ)
    { m with safe_distance := change_param m.safe_distance new_dist (1/10),
             distance_list := [] }

/-- The straight-driving filter of `Model.update_target_speed`: keep
`3.6 * v.x` for samples with `|v.x| > 4` and `|v.x| / |v.y| > 30`.  The
division `abs(v.x) / abs(v.y)` is only reached when `|v.x| > 4`, and it
raises `ZeroDivisionError` when `v.y = 0` (modelled as `none`). -/
def straight_filter : List Vec3 → Option (List ℚ)
  | [] => some []
  | v :: vs =>
    if |v.x| > 4 then
      if v.y = 0 then none
      else if |v.x| / |v.y| > 30 then (straight_filter vs).map fun r => (18/5) * v.x :: r
      else straight_filter vs
    else straight_filter vs

/-- `Model.update_target_speed()`: filter straight-driving samples, and if
`int(0.2 * count) > 10`, sort descending, average the top 20%, blend into
`target_speed` and clear the velocity buffer. -/
def update_target_speed (m : Model) : Option Model :=
  match straight_filter m.velocity_list with
  | none => none
  | some speeds =>
    if (⌊(1/5 : ℚ) * (speeds.length : ℚ)⌋).toNat ≤ 10 then some m
    else
      let length := (⌊(1/5 : ℚ) * (speeds.length : ℚ)⌋).toNat
      let sorted := sortDesc speeds
      let new_speed := (sorted.take length).sum / (length : ℚ)
      some { m with target_speed := change_param m.target_speed new_speed (1/10),
                    velocity_list := [] }

/-- `Model.update_poly_param()`: with at least 50 buffered points and at
least 10 extracted segment points, blend the observed `dt`, `lon_dis`,
`lat_dis`, solve the two boundary-value systems, store the new
`poly_param` and clear the quintic point buffer. -/
def update_poly_param (cosd sind : ℚ → ℚ) (m : Model) : Model :=
  if m.poly_points.length < 50 then m
  else if (get_lane_changing_points cosd sind m.poly_points).1.length < 10 then m
  else
    let r := get_lane_changing_points cosd sind m.poly_points
      let new_dt := r.2.2.1.getLast?.getD 0 - r.2.2.1.head?.getD 0
      let new_lon_dis := r.1.getLast?.getD 0 - r.1.head?.getD 0
      let new_lat_dis := r.2.1.getLast?.getD 0 - r.2.1.head?.getD 0
      let dt := change_param m.poly_param.dt new_dt (1/10)
      let lon_dis := change_param m.poly_param.lon_dis new_lon_dis (1/10)
      let lat_dis := change_param m.poly_param.lat_dis new_lat_dis (1/10)
      let desired_lon_speed := lon_dis / dt
      { m with
        poly_param :=
          { lon_dis := lon_dis, lat_dis := lat_dis, dt := dt,
            lon_param := List.ofFn (solve_poly dt (state_lon lon_dis desired_lon_speed)),
            lat_param := List.ofFn (solve_poly dt (state_lat lat_dis)) },
        poly_points := [] }

/-- Python list indexing `l[i]` with negative-index wrap-around;
`none` models `IndexError`. -/
def pyIndex {α : Type} (l : List α) (i : Int) : Option α :=
  if 0 ≤ i then l[i.toNat]?
  else if (-i).toNat ≤ l.length then l[l.length - (-i).toNat]?
  else none

/-- The result of `np.loadtxt` on the persisted GMM dataset: a single-row
file loads as a one-dimensional array, a multi-row file as a
two-dimensional one. -/
inductive GMMData where
  | one (row : List ℚ)
  | two (rows : List (List ℚ))
deriving DecidableEq

/-- `np.atleast_2d`: reshape a one-dimensional row into a 1 x n array. -/
def np_atleast_2d : GMMData → List (List ℚ)
  | GMMData.one r => [r]
  | GMMData.two rows => rows

/-- `Model.update_sin_param()`: with at least 30 buffered points and at
least 10 extracted segment points, build the GMM training row
`[V, H, DL, DF, new_dt]` from the velocity sample and radar snapshot at the
segment's start index (sentinels `100` / `-100` for absent front-left /
rear-left slots), append it to the dataset (re-shaping a single-row
dataset first), then blend and store `sin_param` and clear the sinusoidal
point buffer.  The result pairs the updated model with `some` written
dataset contents (or `none` when the update returned early);  the outer
`none` models an `IndexError` while reading the velocity or radar data. -/
def update_sin_param (cosd sind : ℚ → ℚ) (m : Model) (file : Option GMMData) :
    Option (Model × Option (List (List ℚ))) :=
  if m.sin_points.length < 30 then some (m, none)
  else if (get_lane_changing_points cosd sind m.sin_points).1.length < 10 then
    some (m, none)
  else
    let r := get_lane_changing_points cosd sind m.sin_points
      let new_dt := r.2.2.1.getLast?.getD 0 - r.2.2.1.head?.getD 0
      let new_lon_dis := r.1.getLast?.getD 0 - r.1.head?.getD 0
      let new_lat_dis := r.2.1.getLast?.getD 0 - r.2.1.head?.getD 0
      match pyIndex m.velocity_list r.2.2.2 with
      | none => none
      | some v =>
        match pyIndex m.radar_list r.2.2.2 with
        | none => none
        | some radars =>
          match pyIndex radars 1, pyIndex radars 2 with
          | some slot1, some slot2 =>
            let gap_lead := slot1.getD 100
            let gap_follow := slot2.getD (-100)
            let data := (match file with
              | none => []
              | some d0 => np_atleast_2d d0) ++ [[v.x, new_lat_dis, gap_lead, gap_follow, new_dt]]
            some ({ m with
                    sin_param :=
                      { lon_dis := change_param m.sin_param.lon_dis new_lon_dis (1/10),
                        lat_dis := change_param m.sin_param.lat_dis new_lat_dis (1/10),
                        dt := change_param m.sin_param.dt new_dt (1/10) },
                    sin_points := [] }, some data)
          | _, _ => none

section CollectClaims

/-- C3: `Model.collect` appends only for the keys `velocity`, `distance`,
`points` and `radars`, and every record `LearningAgent.collect` produces
uses the keys `poly_points` and `speed` (plus `distance`); hence a
`LearningAgent.collect` record can grow only the distance buffer and never
the trajectory-point, velocity, or radar buffers. -/
theorem agent_collect_grows_only_distance
    (sqrt : ℚ → ℚ) (loc_x loc_y yaw ticks : ℚ) (v : Vec3)
    (close : Bool) (dist : ℚ) (m : Model) (d : DictParam)
    (h : LearningAgent.collect sqrt loc_x loc_y yaw ticks v close dist = some d) :
    (collect m d).velocity_list = m.velocity_list ∧
    (collect m d).poly_points = m.poly_points ∧
    (collect m d).sin_points = m.sin_points ∧
    (collect m d).radar_list = m.radar_list ∧
    (collect m d).distance_list = m.distance_list ++ (if close then [dist] else []) := by
  unfold LearningAgent.collect at h
  split_ifs at h
  all_goals simp only [Option.map_some', Option.map_none'] at h
  all_goals
    first
      | exact Option.noConfusion h
      | (injection h with h
         subst h
         simp_all [collect, DictParam.nonEmpty, DictParam.empty])

/-- Witness for C3 at a concrete tick: straight-driving guard fails
(`v = (0, 1, 0)`), obstacle close, distance `7`. -/
theorem agent_collect_grows_only_distance_witness :
    LearningAgent.collect (fun _ => 0) 1 2 3 4 ⟨0, 1, 0⟩ true 7 =
      some { velocity := none, distance := some 7, points := none, radars := none,
             poly_points := some [1, 2, 3, 4], speed := none } ∧
    ((collect default_model
        { velocity := none, distance := some 7, points := none, radars := none,
          poly_points := some [1, 2, 3, 4], speed := none }).velocity_list =
      default_model.velocity_list ∧
    (collect default_model
        { velocity := none, distance := some 7, points := none, radars := none,
          poly_points := some [1, 2, 3, 4], speed := none }).poly_points =
      default_model.poly_points ∧
    (collect default_model
        { velocity := none, distance := some 7, points := none, radars := none,
          poly_points := some [1, 2, 3, 4], speed := none }).sin_points =
      default_model.sin_points ∧
    (collect default_model
        { velocity := none, distance := some 7, points := none, radars := none,
          poly_points := some [1, 2, 3, 4], speed := none }).radar_list =
      default_model.radar_list ∧
    (collect default_model
        { velocity := none, distance := some 7, points := none, radars := none,
          poly_points := some [1, 2, 3, 4], speed := none }).distance_list =
      default_model.distance_list ++ (if true then [7] else [])) := by
  have h : LearningAgent.collect (fun _ => 0) 1 2 3 4 ⟨0, 1, 0⟩ true 7 =
      some { velocity := none, distance := some 7, points := none, radars := none,
             poly_points := some [1, 2, 3, 4], speed := none } := by
    norm_num [LearningAgent.collect, DictParam.empty]
  exact ⟨h, agent_collect_grows_only_distance (fun _ => 0) 1 2 3 4 ⟨0, 1, 0⟩ true 7
    default_model _ h⟩

end CollectClaims

section TargetSpeedClaim

/-- C6: the code, unlike the claim, does not exclude a `v_y = 0` sample
when `|v_x| > 4`: the straight-driving filter evaluates
`abs(v.x) / abs(v.y)` and raises `ZeroDivisionError`.  On the buffer
`[(5, 0, 0)]` the update aborts with an exception (modelled as `none`)
instead of completing. -/
theorem update_target_speed_zero_vy_raises :
    update_target_speed { default_model with velocity_list := [⟨5, 0, 0⟩] } = none := by
  norm_num [update_target_speed, straight_filter]

end TargetSpeedClaim

section SafeDistanceClaims

/-- C7 (amended): `update_safe_distance` performs its update (sort
ascending, average the lowest 20%, blend, store, clear the distance buffer)
if and only if `int(0.2 * len(distance_buffer)) > 5`, i.e. iff the buffer
holds at least 30 samples — not iff `0.2 * len > 5` (which already holds at
26 samples); below 30 samples it is a silent no-op leaving the model and
buffer unchanged. -/
theorem update_safe_distance_gate (m : Model) :
    ((5 : ℤ) < ⌊(1/5 : ℚ) * (m.distance_list.length : ℚ)⌋ ↔
      30 ≤ m.distance_list.length) ∧
    (m.distance_list.length < 30 → update_safe_distance m = m) ∧
    (30 ≤ m.distance_list.length →
      update_safe_distance m =
        { m with
          safe_distance := change_param m.safe_distance
            (((sortAsc m.distance_list).take
                ((⌊(1/5 : ℚ) * (m.distance_list.length : ℚ)⌋).toNat)).sum /
              (((⌊(1/5 : ℚ) * (m.distance_list.length : ℚ)⌋).toNat : ℚ))) (1/10),
          distance_list := [] }) := by
  have hiff : (5 : ℤ) < ⌊(1/5 : ℚ) * (m.distance_list.length : ℚ)⌋ ↔
      30 ≤ m.distance_list.length := by
    rw [Int.lt_iff_add_one_le, Int.le_floor]
    constructor
    · intro h
      have h30 : (30 : ℚ) ≤ (m.distance_list.length : ℚ) := by push_cast at h ⊢; linarith
      exact_mod_cast h30
    · intro h
      have h30 : (30 : ℚ) ≤ (m.distance_list.length : ℚ) := by exact_mod_cast h
      push_cast
      linarith
  refine ⟨hiff, ?_, ?_⟩
  · intro h
    unfold update_safe_distance
    rw [if_pos]
    have hle : ⌊(1/5 : ℚ) * (m.distance_list.length : ℚ)⌋ ≤ 5 := by
      by_contra hc
      push_neg at hc
      exact absurd (hiff.mp hc) (by omega)
    omega
  · intro h
    unfold update_safe_distance
    rw [if_neg]
    have hgt := hiff.mpr h
    omega

/-- Witness for C7's amended theorem at a 30-sample buffer. -/
theorem update_safe_distance_gate_witness :
    ((5 : ℤ) < ⌊(1/5 : ℚ) *
        (({ default_model with distance_list := List.replicate 30 4 } : Model).distance_list.length : ℚ)⌋ ↔
      30 ≤ ({ default_model with distance_list := List.replicate 30 4 } : Model).distance_list.length) ∧
    (({ default_model with distance_list := List.replicate 30 4 } : Model).distance_list.length < 30 →
      update_safe_distance { default_model with distance_list := List.replicate 30 4 } =
        { default_model with distance_list := List.replicate 30 4 }) ∧
    (30 ≤ ({ default_model with distance_list := List.replicate 30 4 } : Model).distance_list.length →
      update_safe_distance { default_model with distance_list := List.replicate 30 4 } =
        { ({ default_model with distance_list := List.replicate 30 4 } : Model) with
          safe_distance := change_param
            ({ default_model with distance_list := List.replicate 30 4 } : Model).safe_distance
            (((sortAsc ({ default_model with distance_list := List.replicate 30 4 } : Model).distance_list).take
                ((⌊(1/5 : ℚ) * (({ default_model with distance_list := List.replicate 30 4 } : Model).distance_list.length : ℚ)⌋).toNat)).sum /
              (((⌊(1/5 : ℚ) * (({ default_model with distance_list := List.replicate 30 4 } : Model).distance_list.length : ℚ)⌋).toNat : ℚ))) (1/10),
          distance_list := [] }) :=
  update_safe_distance_gate { default_model with distance_list := List.replicate 30 4 }

/-- Counterexample to C7 as stated: a 26-element distance buffer satisfies
the claimed precondition `0.2 * len > 5`, yet the update is a no-op (the
code's gate is `int(0.2 * len) > 5`, which requires 30 samples). -/
theorem update_safe_distance_gate_counterexample :
    (5 : ℚ) < (1/5 : ℚ) *
      (({ default_model with distance_list := List.replicate 26 1 } : Model).distance_list.length : ℚ) ∧
    update_safe_distance { default_model with distance_list := List.replicate 26 1 } =
      { default_model with distance_list := List.replicate 26 1 } ∧
    ({ default_model with distance_list := List.replicate 26 1 } : Model).distance_list ≠ [] := by
  refine ⟨by norm_num, ?_, by simp⟩
  unfold update_safe_distance
  rw [if_pos]
  norm_num

/-- C8: for a distance buffer of 30 values whose lowest 6 values average
`4.0` and a stored `safe_distance` of `10.0`, `update_safe_distance` stores
exactly `9.0` — the rate-limited value `10 - 0.1 * 10`, not `4.0` — and
clears the distance buffer. -/
theorem update_safe_distance_scenario (m : Model)
    (hlen : m.distance_list.length = 30) (hsd : m.safe_distance = 10)
    (havg : ((sortAsc m.distance_list).take 6).sum / 6 = 4) :
    update_safe_distance m = { m with safe_distance := 9, distance_list := [] } := by
  have hcp : change_param 10 4 (1/10) = 9 := by norm_num [change_param]
  unfold update_safe_distance
  rw [hlen]
  rw [show ⌊(1/5 : ℚ) * ((30 : ℕ) : ℚ)⌋ = 6 from by norm_num]
  rw [show ((6 : ℤ).toNat) = 6 from rfl]
  rw [if_neg (by norm_num)]
  dsimp only
  rw [show ((6 : ℕ) : ℚ) = 6 from by norm_num]
  rw [hsd, havg, hcp]

/-- Witness for C8 on the concrete buffer of thirty `4.0` samples. -/
theorem update_safe_distance_scenario_witness :
    (({ default_model with distance_list :=
        [4, 4, 4, 4, 4, 4, 4, 4, 4, 4, 4, 4, 4, 4, 4,
         4, 4, 4, 4, 4, 4, 4, 4, 4, 4, 4, 4, 4, 4, 4] } : Model).distance_list.length = 30) ∧
    (({ default_model with distance_list :=
        [4, 4, 4, 4, 4, 4, 4, 4, 4, 4, 4, 4, 4, 4, 4,
         4, 4, 4, 4, 4, 4, 4, 4, 4, 4, 4, 4, 4, 4, 4] } : Model).safe_distance = 10) ∧
    (((sortAsc ({ default_model with distance_list :=
        [4, 4, 4, 4, 4, 4, 4, 4, 4, 4, 4, 4, 4, 4, 4,
         4, 4, 4, 4, 4, 4, 4, 4, 4, 4, 4, 4, 4, 4, 4] } : Model).distance_list).take 6).sum / 6 = 4) ∧
    update_safe_distance { default_model with distance_list :=
        [4, 4, 4, 4, 4, 4, 4, 4, 4, 4, 4, 4, 4, 4, 4,
         4, 4, 4, 4, 4, 4, 4, 4, 4, 4, 4, 4, 4, 4, 4] } =
      { ({ default_model with distance_list :=
          [4, 4, 4, 4, 4, 4, 4, 4, 4, 4, 4, 4, 4, 4, 4,
           4, 4, 4, 4, 4, 4, 4, 4, 4, 4, 4, 4, 4, 4, 4] } : Model) with
        safe_distance := 9, distance_list := [] } := by
  have h1 : (({ default_model with distance_list :=
      [4, 4, 4, 4, 4, 4, 4, 4, 4, 4, 4, 4, 4, 4, 4,
       4, 4, 4, 4, 4, 4, 4, 4, 4, 4, 4, 4, 4, 4, 4] } : Model).distance_list.length = 30) := by
    norm_num
  have h2 : (({ default_model with distance_list :=
      [4, 4, 4, 4, 4, 4, 4, 4, 4, 4, 4, 4, 4, 4, 4,
       4, 4, 4, 4, 4, 4, 4, 4, 4, 4, 4, 4, 4, 4, 4] } : Model).safe_distance = 10) := rfl
  have h3 : (((sortAsc ({ default_model with distance_list :=
      [4, 4, 4, 4, 4, 4, 4, 4, 4, 4, 4, 4, 4, 4, 4,
       4, 4, 4, 4, 4, 4, 4, 4, 4, 4, 4, 4, 4, 4, 4] } : Model).distance_list).take 6).sum / 6 = 4) := by
    norm_num [sortAsc, insertSorted]
  exact ⟨h1, h2, h3, update_safe_distance_scenario _ h1 h2 h3⟩

end SafeDistanceClaims

section SinParamClaims

/-- C9: when `update_sin_param` runs to completion, the row appended to the
external GMM dataset is `[V, H, DL, DF, dt]` with `V` the x-component of
the velocity sample at the segment's start index, `H` the observed
(unblended) lateral displacement, `DL` the front-left gap distance if that
slot is present else `100`, `DF` the rear-left gap distance if present else
`-100`, and `dt` the observed (unblended) duration; an existing single-row
dataset is reshaped to two-dimensional form before the append. -/
theorem sin_param_dataset_row (cosd sind : ℚ → ℚ) (m : Model) (file : Option GMMData)
    (v : Vec3) (radars : RadarSnap) (slot1 slot2 : Option ℚ)
    (h30 : 30 ≤ m.sin_points.length)
    (h10 : 10 ≤ (get_lane_changing_points cosd sind m.sin_points).1.length)
    (hv : pyIndex m.velocity_list
      (get_lane_changing_points cosd sind m.sin_points).2.2.2 = some v)
    (hr : pyIndex m.radar_list
      (get_lane_changing_points cosd sind m.sin_points).2.2.2 = some radars)
    (h1 : pyIndex radars 1 = some slot1)
    (h2 : pyIndex radars 2 = some slot2) :
    (update_sin_param cosd sind m file).map (fun p => p.2) =
      some (some ((match file with
          | none => ([] : List (List ℚ))
          | some d0 => np_atleast_2d d0) ++
        [[v.x,
          (get_lane_changing_points cosd sind m.sin_points).2.1.getLast?.getD 0 -
            (get_lane_changing_points cosd sind m.sin_points).2.1.head?.getD 0,
          slot1.getD 100,
          slot2.getD (-100),
          (get_lane_changing_points cosd sind m.sin_points).2.2.1.getLast?.getD 0 -
            (get_lane_changing_points cosd sind m.sin_points).2.2.1.head?.getD 0]])) := by
  unfold update_sin_param
  simp only [if_neg (show ¬ m.sin_points.length < 30 by omega),
    if_neg (show ¬ (get_lane_changing_points cosd sind m.sin_points).1.length < 10 by omega),
    hv, hr, h1, h2, Option.map_some']

/-- Concrete data for the sinusoidal-fitter witness: 31 buffered points
drifting left by 1 per sample (reference yaw 0), one velocity sample and
one radar snapshot at the segment start. -/
def sin_witness_model : Model :=
  { safe_distance := 10
    target_speed := 28
    poly_param := default_model.poly_param
    sin_param := default_model.sin_param
    distance_list := []
    velocity_list := [⟨7, 0, 0⟩]
    radar_list := [[none, some 50, some 20]]
    poly_points := []
    sin_points := [⟨0, 0, 0, 0, 0⟩, ⟨0, -1, 0, 0, 0⟩, ⟨0, -2, 0, 0, 0⟩, ⟨0, -3, 0, 0, 0⟩, ⟨0, -4, 0, 0, 0⟩, ⟨0, -5, 0, 0, 0⟩, ⟨0, -6, 0, 0, 0⟩, ⟨0, -7, 0, 0, 0⟩, ⟨0, -8, 0, 0, 0⟩, ⟨0, -9, 0, 0, 0⟩, ⟨0, -10, 0, 0, 0⟩, ⟨0, -11, 0, 0, 0⟩, ⟨0, -12, 0, 0, 0⟩, ⟨0, -13, 0, 0, 0⟩, ⟨0, -14, 0, 0, 0⟩, ⟨0, -15, 0, 0, 0⟩, ⟨0, -16, 0, 0, 0⟩, ⟨0, -17, 0, 0, 0⟩, ⟨0, -18, 0, 0, 0⟩, ⟨0, -19, 0, 0, 0⟩, ⟨0, -20, 0, 0, 0⟩, ⟨0, -21, 0, 0, 0⟩, ⟨0, -22, 0, 0, 0⟩, ⟨0, -23, 0, 0, 0⟩, ⟨0, -24, 0, 0, 0⟩, ⟨0, -25, 0, 0, 0⟩, ⟨0, -26, 0, 0, 0⟩, ⟨0, -27, 0, 0, 0⟩, ⟨0, -28, 0, 0, 0⟩, ⟨0, -29, 0, 0, 0⟩, ⟨0, -30, 0, 0, 0⟩] }

/-- Witness for C9 on `sin_witness_model` with a pre-existing single-row
dataset (exercising the reshape path). -/
theorem sin_param_dataset_row_witness :
    (30 ≤ sin_witness_model.sin_points.length ∧
     10 ≤ (get_lane_changing_points (fun _ => 1) (fun _ => 0)
        sin_witness_model.sin_points).1.length ∧
     pyIndex sin_witness_model.velocity_list
       (get_lane_changing_points (fun _ => 1) (fun _ => 0)
          sin_witness_model.sin_points).2.2.2 = some ⟨7, 0, 0⟩ ∧
     pyIndex sin_witness_model.radar_list
       (get_lane_changing_points (fun _ => 1) (fun _ => 0)
          sin_witness_model.sin_points).2.2.2 = some [none, some 50, some 20] ∧
     pyIndex ([none, some 50, some 20] : RadarSnap) 1 = some (some 50) ∧
     pyIndex ([none, some 50, some 20] : RadarSnap) 2 = some (some 20)) ∧
    (update_sin_param (fun _ => 1) (fun _ => 0) sin_witness_model
        (some (GMMData.one [1, 2, 3, 4, 5]))).map (fun p => p.2) =
      some (some ((match some (GMMData.one [1, 2, 3, 4, 5]) with
          | none => ([] : List (List ℚ))
          | some d0 => np_atleast_2d d0) ++
        [[(⟨7, 0, 0⟩ : Vec3).x,
          (get_lane_changing_points (fun _ => 1) (fun _ => 0)
              sin_witness_model.sin_points).2.1.getLast?.getD 0 -
            (get_lane_changing_points (fun _ => 1) (fun _ => 0)
              sin_witness_model.sin_points).2.1.head?.getD 0,
          (some (50 : ℚ)).getD 100,
          (some (20 : ℚ)).getD (-100),
          (get_lane_changing_points (fun _ => 1) (fun _ => 0)
              sin_witness_model.sin_points).2.2.1.getLast?.getD 0 -
            (get_lane_changing_points (fun _ => 1) (fun _ => 0)
              sin_witness_model.sin_points).2.2.1.head?.getD 0]])) := by
  have h30 : 30 ≤ sin_witness_model.sin_points.length := by
    norm_num [sin_witness_model]
  have hstart : (get_lane_changing_points (fun _ => 1) (fun _ => 0)
      sin_witness_model.sin_points).2.2.2 = 0 := by
    norm_num [sin_witness_model, get_lane_changing_points, transform_to_frame,
      maskFilter, firstTrue]
  have h10 : 10 ≤ (get_lane_changing_points (fun _ => 1) (fun _ => 0)
      sin_witness_model.sin_points).1.length := by
    norm_num [sin_witness_model, get_lane_changing_points, transform_to_frame,
      maskFilter, firstTrue]
  have hv : pyIndex sin_witness_model.velocity_list
      (get_lane_changing_points (fun _ => 1) (fun _ => 0)
        sin_witness_model.sin_points).2.2.2 = some ⟨7, 0, 0⟩ := by
    rw [hstart]
    norm_num [sin_witness_model, pyIndex]
  have hr : pyIndex sin_witness_model.radar_list
      (get_lane_changing_points (fun _ => 1) (fun _ => 0)
        sin_witness_model.sin_points).2.2.2 = some [none, some 50, some 20] := by
    rw [hstart]
    norm_num [sin_witness_model, pyIndex]
  have h1 : pyIndex ([none, some 50, some 20] : RadarSnap) 1 = some (some 50) := by
    norm_num [pyIndex]
  have h2 : pyIndex ([none, some 50, some 20] : RadarSnap) 2 = some (some 20) := by
    norm_num [pyIndex, show ((2 : ℤ).toNat) = 2 from rfl]
  exact ⟨⟨h30, h10, hv, hr, h1, h2⟩,
    sin_param_dataset_row (fun _ => 1) (fun _ => 0) sin_witness_model
      (some (GMMData.one [1, 2, 3, 4, 5])) ⟨7, 0, 0⟩ [none, some 50, some 20]
      (some 50) (some 20) h30 h10 hv hr h1 h2⟩

end SinParamClaims

/-! ## The model invariant (`dt > 0`, 6-element coefficient vectors) -/

/-- The claimed model invariant: positive `dt` in both shape models and
6-element quintic coefficient vectors. -/
def ModelInv (m : Model) : Prop :=
  0 < m.poly_param.dt ∧ 0 < m.sin_param.dt ∧
    m.poly_param.lon_param.length = 6 ∧ m.poly_param.lat_param.length = 6

/-- One invocation of an update operation (or of `collect`), as sequenced by
a learning session; the exception-modelling `Option` results leave the model
unchanged when the Python code would raise. -/
inductive ModelOp where
  | poly (cosd sind : ℚ → ℚ)
  | sinp (cosd sind : ℚ → ℚ) (file : Option GMMData)
  | safe
  | speed
  | record (d : DictParam)

/-- Apply one operation to the model. -/
def ModelOp.apply (m : Model) : ModelOp → Model
  | ModelOp.poly cosd sind => update_poly_param cosd sind m
  | ModelOp.sinp cosd sind file =>
    match update_sin_param cosd sind m file with
    | some p => p.1
    | none => m
  | ModelOp.safe => update_safe_distance m
  | ModelOp.speed =>
    match update_target_speed m with
    | some m2 => m2
    | none => m
  | ModelOp.record d => collect m d

lemma modelInv_update_poly (cosd sind : ℚ → ℚ) (m : Model) (h : ModelInv m) :
    ModelInv (update_poly_param cosd sind m) := by
  unfold update_poly_param
  split_ifs with h1 h2
  · exact h
  · exact h
  · exact ⟨change_param_pos _ _ h.1, h.2.1, by simp, by simp⟩

lemma modelInv_update_sin (cosd sind : ℚ → ℚ) (file : Option GMMData) (m : Model)
    (h : ModelInv m) :
    ModelInv (match update_sin_param cosd sind m file with
      | some p => p.1
      | none => m) := by
  unfold update_sin_param
  split_ifs with h1 h2
  · exact h
  · exact h
  · rcases hvv : pyIndex m.velocity_list
        ((get_lane_changing_points cosd sind m.sin_points).2.2.2) with _ | v
    · simp only [hvv]
      exact h
    · simp only [hvv]
      rcases hrr : pyIndex m.radar_list
          ((get_lane_changing_points cosd sind m.sin_points).2.2.2) with _ | radars
      · simp only [hrr]
        exact h
      · simp only [hrr]
        rcases hs1 : pyIndex radars 1 with _ | s1 <;>
          rcases hs2 : pyIndex radars 2 with _ | s2 <;>
          simp only [hs1, hs2]
        · exact h
        · exact h
        · exact h
        · exact ⟨h.1, change_param_pos _ _ h.2.1, h.2.2.1, h.2.2.2⟩

lemma modelInv_update_safe (m : Model) (h : ModelInv m) :
    ModelInv (update_safe_distance m) := by
  unfold update_safe_distance
  split_ifs
  · exact h
  · exact h

lemma modelInv_update_speed (m : Model) (h : ModelInv m) :
    ModelInv (match update_target_speed m with
      | some m2 => m2
      | none => m) := by
  unfold update_target_speed
  rcases hf : straight_filter m.velocity_list with _ | speeds
  · simp only [hf]
    exact h
  · simp only [hf]
    split_ifs
    · exact h
    · exact h

lemma modelInv_collect (d : DictParam) (m : Model) (h : ModelInv m) :
    ModelInv (collect m d) := by
  obtain ⟨dv, dd, dp, dr, dpp, ds⟩ := d
  unfold collect
  split_ifs
  · cases dv <;> cases dd <;> cases dp <;> cases dr <;> exact h
  · exact h

lemma modelInv_apply (op : ModelOp) (m : Model) (h : ModelInv m) :
    ModelInv (ModelOp.apply m op) := by
  cases op with
  | poly cosd sind => exact modelInv_update_poly cosd sind m h
  | sinp cosd sind file => exact modelInv_update_sin cosd sind file m h
  | safe => exact modelInv_update_safe m h
  | speed => exact modelInv_update_speed m h
  | record d => exact modelInv_collect d m h

lemma modelInv_foldl (ops : List ModelOp) (m : Model) (h : ModelInv m) :
    ModelInv (ops.foldl ModelOp.apply m) := by
  induction ops generalizing m with
  | nil => exact h
  | cons op ops ih => exact ih _ (modelInv_apply op m h)

section InvariantClaim

/-- C10: starting from the default model (`dt = 4` in both shape models,
6-element coefficient vectors), every sequence of the four update
operations (interleaved with arbitrary `collect` calls) preserves
`dt > 0` in both `poly_param` and `sin_param` and the 6-element length of
both coefficient vectors. -/
theorem model_invariant_preserved (ops : List ModelOp) :
    0 < (ops.foldl ModelOp.apply default_model).poly_param.dt ∧
    0 < (ops.foldl ModelOp.apply default_model).sin_param.dt ∧
    (ops.foldl ModelOp.apply default_model).poly_param.lon_param.length = 6 ∧
    (ops.foldl ModelOp.apply default_model).poly_param.lat_param.length = 6 :=
  modelInv_foldl ops default_model
    ⟨by norm_num [default_model], by norm_num [default_model],
     by norm_num [default_model], by norm_num [default_model]⟩

end InvariantClaim
